import Mathlib

/-!
Verification of the ZeroBookSwap ZCoin ledger / payment-verification subsystem.

Shallow embedding conventions:
* Python `Decimal` values are modelled as exact rationals (`ℚ`); every Decimal
  operation used by the code (`+`, `-`, `*`, comparison, `quantize` with
  `ROUND_HALF_UP`) is exact on `ℚ`, with `quantize(0.01, ROUND_HALF_UP)`
  modelled by `roundHalfUp2`.
* Django ORM rows are modelled as fields of an explicit state record; an
  autoincrement primary key is modelled by an explicit `id` field.
* Each view/admin action becomes a pure function from (inputs, state) to
  (response, state); `transaction.atomic` blocks either commit wholly or are
  modelled by a `persistFails` flag that returns the unchanged state together
  with the error response the `except` branch produces.
* The external HTTP world (network errors, raised exceptions, status codes and
  the already-scraped/parsed receipt content) is an explicit argument of
  inductive type, so that exception-handling paths of the source are total
  case arms here.
-/

namespace ZeroBookSwap

set_option maxRecDepth 8000

/-! ### Decimal helpers -/

/-- Numeric value of a list of decimal digit characters, most significant first
(the value `int("".join(digits))` would produce). -/
def digitsVal (cs : List Char) : ℕ :=
  cs.foldl (fun a c => a * 10 + (c.toNat - 48)) 0

/-- Python `Decimal(s)` on a string made only of digits and dots: at most one
dot and at least one digit, otherwise `InvalidOperation` (modelled as `none`). -/
def parseRun (cs : List Char) : Option ℚ :=
  let intp := cs.takeWhile Char.isDigit
  let rest := cs.drop intp.length
  match rest with
  | [] => if intp.isEmpty then none else some (digitsVal intp : ℚ)
  | '.' :: rest2 =>
    let frac := rest2.takeWhile Char.isDigit
    if rest2.length ≠ frac.length then none
    else if intp.isEmpty && frac.isEmpty then none
    else some ((digitsVal intp : ℚ) + (digitsVal frac : ℚ) / 10 ^ frac.length)
  | _ => none

/-- The view's receipt-amount extraction
`Decimal(re.search(r'([\d.]+)', amount_str.replace(',', '')).group(1))`:
drop commas, take the first maximal run of digits/dots, parse it as a Decimal;
`none` models both the no-match `AttributeError` and `InvalidOperation`. -/
def parsePaidAmount (s : String) : Option ℚ :=
  let cs := (s.toList.filter (fun c => c ≠ ',')).dropWhile
    (fun c => ¬ (c.isDigit || c = '.'))
  let run := cs.takeWhile (fun c => c.isDigit || c = '.')
  if run.isEmpty then none else parseRun run

/-- Python `Decimal.quantize(Decimal('0.01'), rounding=ROUND_HALF_UP)`:
round to 2 decimal places, ties away from zero. -/
def roundHalfUp2 (q : ℚ) : ℚ :=
  if 0 ≤ q then ((q * 100 + 1/2).floor : ℚ) / 100
  else -(((-q * 100 + 1/2).floor : ℚ) / 100)

/-- Clamping of a value into `[lo, hi]`, as the specification words it. -/
def clampQ (x lo hi : ℚ) : ℚ := max lo (min x hi)

/-! ### ASCII string helpers

Python's `str.strip` / `str.upper` / `str.lower` are modelled character-wise
over the string's character list (the repository only feeds them ASCII
payment references and status tokens). -/

/-- Whitespace test of `str.strip`. -/
def isSpaceChar (c : Char) : Bool :=
  c = ' ' || c = '\t' || c = '\n' || c = '\r'

/-- `str.strip()`: drop leading and trailing whitespace. -/
def trimString (s : String) : String :=
  ⟨((s.toList.dropWhile isSpaceChar).reverse.dropWhile isSpaceChar).reverse⟩

/-- Uppercase one ASCII character. -/
def upperChar (c : Char) : Char :=
  if 'a' ≤ c ∧ c ≤ 'z' then Char.ofNat (c.toNat - 32) else c

/-- `str.upper()`. -/
def upperString (s : String) : String := ⟨s.toList.map upperChar⟩

/-- Lowercase one ASCII character. -/
def lowerChar (c : Char) : Char :=
  if 'A' ≤ c ∧ c ≤ 'Z' then Char.ofNat (c.toNat + 32) else c

/-- `str.lower()`. -/
def lowerString (s : String) : String := ⟨s.toList.map lowerChar⟩

/-- Substring-at-the-front test (used to model `description__contains` for
descriptions the code always writes with the searched text as a prefix). -/
def strHasPrefix (p s : String) : Bool := p.toList.isPrefixOf s.toList

/-! ### ZCoin Valuation Engine (`core/utils/zcoin_calculator.py`) -/

/-- One row of `ZCoinCalculatorSettings` (`core/models.py`). -/
structure CalcSettings where
  classics_base : ℚ := 30
  nonfiction_base : ℚ := 25
  fiction_base : ℚ := 20
  contemporary_base : ℚ := 15
  academic_base : ℚ := 35
  children_base : ℚ := 18
  reference_base : ℚ := 40
  excellent_multiplier : ℚ := 3/2
  good_multiplier : ℚ := 1
  fair_multiplier : ℚ := 7/10
  poor_multiplier : ℚ := 2/5
  hardcover_bonus : ℚ := 10
  dust_jacket_bonus : ℚ := 15
  no_cover_penalty : ℚ := -5
  has_images_bonus : ℚ := 5
  has_original_dust_jacket : ℚ := 8
  is_first_edition_bonus : ℚ := 20
  is_signed_bonus : ℚ := 25
  min_zcoin : ℚ := 5
  max_zcoin : ℚ := 200
  zcoin_to_birr_rate : ℚ := 1/10
deriving DecidableEq

/-- The settings row with every model-field default (a fresh
`get_or_create(pk=1)` row). -/
def defaultCalcSettings : CalcSettings := {}

/-- `base_values.get(category, settings.contemporary_base)`. -/
def categoryBase (s : CalcSettings) (category : String) : ℚ :=
  if category = "classics" then s.classics_base
  else if category = "non-fiction" then s.nonfiction_base
  else if category = "fiction" then s.fiction_base
  else if category = "contemporary" then s.contemporary_base
  else if category = "academic" then s.academic_base
  else if category = "children" then s.children_base
  else if category = "reference" then s.reference_base
  else s.contemporary_base

/-- `condition_multipliers.get(condition, settings.good_multiplier)`. -/
def conditionMult (s : CalcSettings) (condition : String) : ℚ :=
  if condition = "excellent" then s.excellent_multiplier
  else if condition = "good" then s.good_multiplier
  else if condition = "fair" then s.fair_multiplier
  else if condition = "poor" then s.poor_multiplier
  else s.good_multiplier

/-- Bonus accumulation of `calculate_zcoin`: the cover-type branch (a falsy /
unknown cover adds nothing) plus the four independent feature flags. -/
def bonusTotal (s : CalcSettings) (cover_type : Option String)
    (has_images has_dust_jacket is_first_edition is_signed : Bool) : ℚ :=
  (match cover_type with
   | some "hardcover" => s.hardcover_bonus
   | some "dust_jacket" => s.dust_jacket_bonus
   | some "no_cover" => s.no_cover_penalty
   | _ => 0)
  + (if has_images then s.has_images_bonus else 0)
  + (if has_dust_jacket then s.has_original_dust_jacket else 0)
  + (if is_first_edition then s.is_first_edition_bonus else 0)
  + (if is_signed then s.is_signed_bonus else 0)

/-- The calculation-result dictionary returned by `calculate_zcoin`
(only the fields the claims speak about). -/
structure CalcResult where
  zcoin : ℚ
  price_birr : ℚ
  base_value : ℚ
  condition_multiplier : ℚ
  bonuses : ℚ
  calculated_zcoin : ℚ
  is_manual : Bool
deriving DecidableEq

/-- The `ZCoinCalculationLog` row created by `calculate_zcoin`. -/
structure CalcLog where
  category : String
  condition : String
  base_value : ℚ
  condition_multiplier : ℚ
  bonuses : ℚ
  calculated_zcoin : ℚ
  final_zcoin : ℚ
  manual_override : Bool
  manual_zcoin : Option ℚ
deriving DecidableEq

/-- `ZCoinCalculator.calculate_zcoin` (`core/utils/zcoin_calculator.py`,
lines 39-141), returning the result dictionary together with the log row it
persists.  A float/string override is modelled as an exact rational, matching
the source's `Decimal(str(...))` conversion. -/
def ZCoinCalculator.calculate (s : CalcSettings) (category condition : String)
    (cover_type : Option String)
    (has_images has_dust_jacket is_first_edition is_signed : Bool)
    (manual_zcoin : Option ℚ) : CalcResult × CalcLog :=
  let base_value := categoryBase s category
  let condition_multiplier := conditionMult s condition
  let bonuses := bonusTotal s cover_type has_images has_dust_jacket
    is_first_edition is_signed
  let calculated0 := base_value * condition_multiplier + bonuses
  let final0 := max s.min_zcoin (min s.max_zcoin calculated0)
  let manual_override := manual_zcoin.isSome
  let final1 := match manual_zcoin with
    | some m => m
    | none => final0
  let calculated1 := match manual_zcoin with
    | some m => m
    | none => calculated0
  let final_zcoin := roundHalfUp2 final1
  let calculated_zcoin := roundHalfUp2 calculated1
  let bonusesR := roundHalfUp2 bonuses
  let price_birr := roundHalfUp2 (final_zcoin * s.zcoin_to_birr_rate)
  ({ zcoin := final_zcoin, price_birr := price_birr, base_value := base_value,
     condition_multiplier := condition_multiplier, bonuses := bonusesR,
     calculated_zcoin := calculated_zcoin, is_manual := manual_override },
   { category := category, condition := condition, base_value := base_value,
     condition_multiplier := condition_multiplier, bonuses := bonusesR,
     calculated_zcoin := calculated_zcoin, final_zcoin := final_zcoin,
     manual_override := manual_override, manual_zcoin := manual_zcoin })

/-- The seven category keys of the `base_values` dictionary. -/
def knownCategories : List String :=
  ["classics", "non-fiction", "fiction", "contemporary", "academic",
   "children", "reference"]

/-- The four condition keys of the `condition_multipliers` dictionary. -/
def knownConditions : List String := ["excellent", "good", "fair", "poor"]

/-! ### Telebirr verifier (`core/utils.py`, the module imported by the views) -/

/-- The `TelebirrReceipt` dataclass. -/
structure TelebirrReceipt where
  payer_name : String := ""
  payer_telebirr_no : String := ""
  credited_party_name : String := ""
  credited_party_account_no : String := ""
  transaction_status : String := ""
  receipt_no : String := ""
  payment_date : String := ""
  settled_amount : String := ""
  service_fee : String := ""
  service_fee_vat : String := ""
  total_paid_amount : String := ""
  bank_name : String := ""
deriving DecidableEq

/-- What the outside world hands back for one live Telebirr lookup.
`netError` is a raised `requests.RequestException`, `exn` any other raised
exception inside the `try`, and `ok status scraped` a completed HTTP response
whose HTML `_scrape_receipt_html` would parse into `scraped` (the scraping
itself is abstracted to its output: malformed or incomplete HTML is an `ok`
response whose scraped fields are empty). -/
inductive TelebirrHttpResult where
  | netError
  | exn
  | ok (status : ℕ) (scraped : TelebirrReceipt)
deriving DecidableEq

/-- `TelebirrVerifier._is_valid_receipt`: all four critical fields truthy. -/
def telebirrIsValidReceipt (r : TelebirrReceipt) : Bool :=
  (r.receipt_no != "") && (r.payer_name != "") &&
  ((r.settled_amount != "") || (r.total_paid_amount != "")) &&
  (r.transaction_status != "")

/-- `TelebirrVerifier._mock_verify`: the fixed development receipt, echoing the
uppercased reference as receipt number. -/
def TelebirrVerifier.mockVerify (reference : String) : TelebirrReceipt where
  payer_name := "Abebe Kebede"
  payer_telebirr_no := "0912345678"
  credited_party_name := "BookSwap Ethiopia"
  credited_party_account_no := "1000123456"
  transaction_status := "Completed"
  receipt_no := upperString reference
  payment_date := "29-04-2025 10:30:45"
  settled_amount := "150.00 Birr"
  service_fee := "3.00 Birr"
  service_fee_vat := "0.45 Birr"
  total_paid_amount := "153.45 Birr"
  bank_name := ""

/-- `TelebirrVerifier.verify` (`core/utils.py`, lines 37-67): mock mode
returns the mock receipt; live mode returns `None` on a raised exception, a
non-200 status, or an invalid/incomplete scraped receipt. -/
def TelebirrVerifier.verify (mock_mode : Bool) (ext : TelebirrHttpResult)
    (reference : String) : Option TelebirrReceipt :=
  if mock_mode then some (TelebirrVerifier.mockVerify reference)
  else
    match ext with
    | .netError => none
    | .exn => none
    | .ok status scraped =>
      if status ≠ 200 then none
      else if telebirrIsValidReceipt scraped then some scraped
      else none

/-! ### Bank of Abyssinia verifier (`core/utils/payment_verification.py`) -/

/-- The `AbyssiniaReceipt` dataclass. -/
structure AbyssiniaReceipt where
  success : Bool := false
  payer_name : String := ""
  payer_account : String := ""
  amount : ℚ := 0
  date : String := ""
  reference : String := ""
  narrative : String := ""
  error : Option String := none
deriving DecidableEq

/-- The first record of the JSON response body, with the keys
`_parse_api_response` reads (each `.get(...)` defaulting to the empty value
when absent, which is folded into the field value here). -/
structure AbyssiniaTxnRecord where
  transferredAmount : String := "0"
  payerName : String := ""
  sourceAccount : String := ""
  transactionDate : String := ""
  transactionReference : String := ""
  narrative : String := ""
deriving DecidableEq

/-- The decoded JSON document: header status/message and the body list.
`headerStatus`/`headerMessage` are the values `.get` produces (`""` / absent
key as `none`). -/
structure AbyssiniaJson where
  headerStatus : String := ""
  headerMessage : Option String := none
  body : List AbyssiniaTxnRecord := []
deriving DecidableEq

/-- One live Bank-of-Abyssinia lookup as the outside world returns it:
a raised network error, another raised exception, or a completed response
with a status code and either a decoded JSON document or `none` when
`response.json()` raises (malformed JSON, absorbed by the outer `except`). -/
inductive AbyssiniaHttpResult where
  | netError
  | exn
  | ok (status : ℕ) (json : Option AbyssiniaJson)
deriving DecidableEq

/-- The amount extraction of `_parse_api_response`:
`re.search(r'[\d,]+(?:\.\d+)?', raw.replace(',', ''))` then `Decimal` on the
match, `Decimal('0')` when nothing matches. -/
def parseAbyssiniaAmount (s : String) : ℚ :=
  let cs := (s.toList.filter (fun c => c ≠ ',')).dropWhile (fun c => ¬ c.isDigit)
  let intp := cs.takeWhile Char.isDigit
  if intp.isEmpty then 0
  else
    match cs.drop intp.length with
    | '.' :: rest2 =>
      let frac := rest2.takeWhile Char.isDigit
      if frac.isEmpty then (digitsVal intp : ℚ)
      else (digitsVal intp : ℚ) + (digitsVal frac : ℚ) / 10 ^ frac.length
    | _ => (digitsVal intp : ℚ)

/-- `AbyssiniaVerifier._parse_api_response` (lines 235-265): reads `body[0]`
(an empty body raises, caught as "Invalid receipt format"), extracts the
fields, then invalidates the outcome unless the payer name is non-empty and
the amount positive. -/
def abyssiniaParseApiResponse (j : AbyssiniaJson) : AbyssiniaReceipt :=
  match j.body with
  | [] => { success := false, error := some "Invalid receipt format" }
  | txn :: _ =>
    let amount := parseAbyssiniaAmount txn.transferredAmount
    let receipt : AbyssiniaReceipt :=
      { success := true, payer_name := trimString txn.payerName,
        payer_account := trimString txn.sourceAccount, amount := amount,
        date := txn.transactionDate, reference := txn.transactionReference,
        narrative := trimString txn.narrative, error := none }
    if receipt.payer_name ≠ "" ∧ 0 < receipt.amount then receipt
    else { receipt with success := false, error := some "Incomplete receipt data" }

/-- `AbyssiniaVerifier._mock_verify`. -/
def AbyssiniaVerifier.mockVerify (reference account_suffix : String) :
    AbyssiniaReceipt where
  success := true
  payer_name := "Yordanos Tesfaye"
  payer_account := "1000****5678"
  amount := 250
  date := "30-Nov-2025 14:22:18"
  reference := upperString reference ++ account_suffix
  narrative := "YORDANOS BOOKSWAP"
  error := none

/-- `AbyssiniaVerifier.verify` (lines 200-233): mock mode, else a typed
failure for each absorbed exception / non-200 / rejected header status, else
`_parse_api_response` on the decoded document. -/
def AbyssiniaVerifier.verify (mock_mode : Bool) (ext : AbyssiniaHttpResult)
    (reference account_suffix : String) : AbyssiniaReceipt :=
  if mock_mode then AbyssiniaVerifier.mockVerify reference account_suffix
  else
    match ext with
    | .netError => { success := false, error := some "Network timeout" }
    | .exn => { success := false, error := some "Verification failed" }
    | .ok status json? =>
      if status ≠ 200 then { success := false, error := some "Transaction not found" }
      else
        match json? with
        | none => { success := false, error := some "Verification failed" }
        | some j =>
          if lowerString j.headerStatus ≠ "success" then
            { success := false,
              error := some (j.headerMessage.getD "Invalid transaction") }
          else abyssiniaParseApiResponse j

/-! ### Data model rows (`core/models.py`), restricted to one user

All wallet-mutating code paths touch exactly one user's wallet and create
transactions for that same user, so state is modelled per user: the wallet
balance, that user's transactions, and the rows the claims mention. -/

/-- One `Transaction` ledger row. -/
structure Txn where
  transaction_type : String
  amount : ℚ
  description : String
deriving DecidableEq

/-- One `Payment` row (the fields the payment view writes). -/
structure Payment where
  reference_number : String
  amount_birr : ℚ
  actual_amount_birr : ℚ
  zcoin_amount : ℚ
  receipt_no : String
  payer_name : String
  payer_phone : String
  status : String
deriving DecidableEq

/-- One `Book` row (the fields swap creation reads and writes). -/
structure Book where
  id : ℕ
  title : String
  zcoin_value : ℚ
  is_available : Bool
  book_type : String
deriving DecidableEq

/-- One `SwapRequest` row (the fields settlement reads and writes). -/
structure SwapRow where
  id : ℕ
  requested_book_id : ℕ
  calculated_zcoin : ℚ
  status : String
deriving DecidableEq

/-- One `CommodityPurchase` row (the fields the refund actions read).
Commodity stock is not part of the ledger and is not modelled. -/
structure PurchaseRow where
  id : ℕ
  commodityName : String
  quantity : ℕ
  total_zcoin : ℚ
  status : String
deriving DecidableEq

/-- One `CoinPackage` row. -/
structure CoinPackage where
  name : String
  zcoin_amount : ℚ
  price_birr : ℚ
deriving DecidableEq

/-- The per-user persistent state: the wallet balance (`Wallet.zcoin_balance`,
created lazily at zero), the user's transactions and payments, and the shared
book/swap/purchase tables. -/
structure AppState where
  zcoin_balance : ℚ
  txns : List Txn
  payments : List Payment
  books : List Book
  swaps : List SwapRow
  purchases : List PurchaseRow
deriving DecidableEq

/-- A state with a zero, freshly created wallet and no rows at all. -/
def emptyAppState : AppState :=
  { zcoin_balance := 0, txns := [], payments := [], books := [], swaps := [],
    purchases := [] }

/-- Sum of the `amount` column over a transaction list. -/
def txnSum (ts : List Txn) : ℚ := (ts.map Txn.amount).sum

/-! ### Payment verification view (`core/views.py`, `PaymentVerificationView`) -/

/-- `settings.ZCOIN_PRICE_PER_BIRR` (`bookswap/settings.py`, default 100). -/
def zcoinPricePerBirr : ℚ := 100

/-- The request's amount source: a `coin_package_id` together with the result
of the active-package lookup, a parsed `custom_amount`, or neither.  The
source checks `coin_package_id` first, so a request carrying both is the
`package` case. -/
inductive AmountArg where
  | package (lookup : Option CoinPackage)
  | custom (amount : ℚ)
  | neither
deriving DecidableEq

/-- The JSON responses of `PaymentVerificationView.post`, by their error
message (`success` carries the body fields the claims mention). -/
inductive TopUpResponse where
  | errorRefRequired
  | errorDuplicateReference
  | errorInvalidPackage
  | errorBelowMinimum
  | errorMissingAmount
  | errorNotFound
  | errorUnreadableAmount
  | errorAmountMismatch (expected received : ℚ)
  | errorVerifiedNotCredited
  | success (zcoin_added new_balance : ℚ) (receipt_no payer reference : String)
deriving DecidableEq

/-- Lines 181-200 of `views.py`: derive `(expected_amount, zcoin_to_add)`
from the package or the custom amount, or fail. -/
def expectedAmounts : AmountArg → Except TopUpResponse (ℚ × ℚ)
  | .package (some pkg) => .ok (pkg.price_birr, pkg.zcoin_amount)
  | .package none => .error .errorInvalidPackage
  | .custom a =>
    if a < 10 then .error .errorBelowMinimum
    else .ok (a, a * zcoinPricePerBirr)
  | .neither => .error .errorMissingAmount

/-- The ±0.50 Birr tolerance test of lines 223-225. -/
def amountWithinTolerance (expected paid : ℚ) : Bool :=
  decide (expected - 1/2 ≤ paid ∧ paid ≤ expected + 1/2)

/-- Outcome of everything `PaymentVerificationView.post` does before its
`transaction.atomic` block: a rejection response, or the decision to commit. -/
inductive TopUpDecision where
  | reject (r : TopUpResponse)
  | commit (expected paid zcoin_to_add : ℚ) (receipt : TelebirrReceipt)
deriving DecidableEq

/-- Lines 167-230 of `views.py`: strip the reference, reject an empty or
already-used reference, derive the amounts, run the verifier — constructed
with `mock_mode=True` unconditionally — parse the paid amount out of the
receipt's settled-or-total amount string, and apply the tolerance test. -/
def topUpDecision (ext : TelebirrHttpResult) (st : AppState)
    (reference_number_raw : String) (arg : AmountArg) : TopUpDecision :=
  let reference_number := trimString reference_number_raw
  if reference_number = "" then .reject .errorRefRequired
  else if st.payments.any (fun p => p.reference_number == reference_number) then
    .reject .errorDuplicateReference
  else
    match expectedAmounts arg with
    | .error r => .reject r
    | .ok (expected_amount, zcoin_to_add) =>
      match TelebirrVerifier.verify true ext reference_number with
      | none => .reject .errorNotFound
      | some receipt =>
        let amount_str := if receipt.settled_amount ≠ "" then
          receipt.settled_amount else receipt.total_paid_amount
        match parsePaidAmount amount_str with
        | none => .reject .errorUnreadableAmount
        | some paid_amount =>
          if amountWithinTolerance expected_amount paid_amount then
            .commit expected_amount paid_amount zcoin_to_add receipt
          else .reject (.errorAmountMismatch expected_amount paid_amount)

/-- The `Payment` row lines 235-248 create. -/
def mkTopUpPayment (reference : String) (expected paid zcoin : ℚ)
    (receipt : TelebirrReceipt) : Payment :=
  { reference_number := reference, amount_birr := expected,
    actual_amount_birr := paid, zcoin_amount := zcoin,
    receipt_no := receipt.receipt_no, payer_name := receipt.payer_name,
    payer_phone := receipt.payer_telebirr_no, status := "verified" }

/-- The `Transaction` row lines 254-260 create (the f-string detail of the
description is abstracted to the reference). -/
def mkTopUpTxn (reference : String) (zcoin : ℚ) : Txn :=
  { transaction_type := "topup", amount := zcoin,
    description := "Telebirr top-up " ++ reference }

/-- `PaymentVerificationView.post` in full: the pre-checks, then the
`transaction.atomic` block persisting the Payment row, the wallet credit and
the topup Transaction as one unit.  `persistFails` models the `except` branch
around that block: nothing is committed and the distinct contact-support
error is returned. -/
def paymentVerificationPost (persistFails : Bool) (ext : TelebirrHttpResult)
    (st : AppState) (reference_number_raw : String) (arg : AmountArg) :
    TopUpResponse × AppState :=
  match topUpDecision ext st reference_number_raw arg with
  | .reject r => (r, st)
  | .commit expected paid zcoin_to_add receipt =>
    if persistFails then (.errorVerifiedNotCredited, st)
    else
      let reference_number := trimString reference_number_raw
      let new_balance := st.zcoin_balance + zcoin_to_add
      (.success zcoin_to_add new_balance receipt.receipt_no receipt.payer_name
         reference_number,
       { st with
         payments := mkTopUpPayment reference_number expected paid zcoin_to_add
           receipt :: st.payments,
         zcoin_balance := new_balance,
         txns := mkTopUpTxn reference_number zcoin_to_add :: st.txns })

/-! ### Swap creation and settlement (`core/views.py`, `core/admin.py`) -/

/-- `Book.BOOK_GENRES` choice keys (`core/models.py`). -/
def validGenres : List String :=
  ["fiction", "non-fiction", "classics", "contemporary"]

/-- `Book.BOOK_CONDITIONS` choice keys. -/
def validConditions : List String := ["excellent", "good", "fair", "poor"]

/-- `ZCoinCalculatorSerializer.calculate_zcoin` (`core/serializers.py`,
lines 139-162): hardcoded category value plus condition value. -/
def serializerCategoryValue (genre : String) : ℚ :=
  if genre = "classics" then 30
  else if genre = "non-fiction" then 25
  else if genre = "fiction" then 20
  else if genre = "contemporary" then 15
  else 15

/-- Condition component of the same serializer calculation. -/
def serializerConditionValue (condition : String) : ℚ :=
  if condition = "excellent" then 50
  else if condition = "good" then 35
  else if condition = "fair" then 20
  else if condition = "poor" then 10
  else 20

/-- The serializer's total: category value + condition value. -/
def serializerCalculateZcoin (genre condition : String) : ℚ :=
  serializerCategoryValue genre + serializerConditionValue condition

/-- Responses of `SwapRequestViewSet.perform_create`. -/
inductive SwapCreateResponse where
  | errorInvalidGenreCondition
  | errorBookUnavailable
  | errorInsufficientZcoin
  | created
deriving DecidableEq

/-- `SwapRequestViewSet.perform_create` (`core/views.py`, lines 356-410),
verbatim including its `zcoin_difference = max(0, balance - calculated)`
arithmetic: validate the genre/condition choices, look up an available
swap-type book, take `calculated_zcoin` from the requested book's value
(falling back to the serializer calculation only when that value is zero,
Python falsiness of `Decimal('0')`), run the insufficiency check, save the
swap row, and — whenever `zcoin_difference >= 0` — debit the wallet, append
the swap transaction and mark the book unavailable, all in one atomic block.
A `ValidationError` aborts the block with no mutation. -/
def swapPerformCreate (st : AppState) (genre condition : String)
    (requested_book_id : ℕ) : SwapCreateResponse × AppState :=
  if ¬ (genre ∈ validGenres ∧ condition ∈ validConditions) then
    (.errorInvalidGenreCondition, st)
  else
    match st.books.find? (fun b =>
        b.id == requested_book_id && b.is_available && b.book_type == "swap") with
    | none => (.errorBookUnavailable, st)
    | some requested_book =>
      let calculated_zcoin :=
        if requested_book.zcoin_value ≠ 0 then requested_book.zcoin_value
        else serializerCalculateZcoin genre condition
      let zcoin_difference := max 0 (st.zcoin_balance - calculated_zcoin)
      if zcoin_difference > 0 ∧ st.zcoin_balance < zcoin_difference then
        (.errorInsufficientZcoin, st)
      else
        let swapRow : SwapRow :=
          { id := st.swaps.length + 1, requested_book_id := requested_book.id,
            calculated_zcoin := calculated_zcoin, status := "pending" }
        let st1 := { st with swaps := swapRow :: st.swaps }
        if zcoin_difference ≥ 0 then
          (.created,
           { st1 with
             zcoin_balance := st1.zcoin_balance - calculated_zcoin,
             txns := { transaction_type := "swap", amount := -calculated_zcoin,
                       description := "Swap: " ++ requested_book.title } :: st1.txns,
             books := st1.books.map (fun b =>
               if b.id == requested_book.id then { b with is_available := false }
               else b) })
        else (.created, st1)

/-- `SwapRequestAdmin.approve_swaps` (`core/admin.py`, lines 257-276) for one
selected swap: only a pending swap is processed; its status becomes approved,
and when `calculated_zcoin - requested_book.zcoin_value` is positive that
difference is credited back with a refund transaction. -/
def approveSwap (st : AppState) (sid : ℕ) : AppState :=
  match st.swaps.find? (fun s => s.id == sid && s.status == "pending") with
  | none => st
  | some sw =>
    match st.books.find? (fun b => b.id == sw.requested_book_id) with
    | none => st
    | some requested_book =>
      let st1 := { st with swaps := st.swaps.map (fun s =>
        if s.id == sid then { s with status := "approved" } else s) }
      let diff := sw.calculated_zcoin - requested_book.zcoin_value
      if diff > 0 then
        { st1 with
          zcoin_balance := st1.zcoin_balance + diff,
          txns := { transaction_type := "refund", amount := diff,
                    description := "Swap refund: " ++ requested_book.title }
            :: st1.txns }
      else st1

/-- `WalletAdmin.add_zcoin` (`core/admin.py`, lines 89-101) for one wallet. -/
def adminAddZcoin (st : AppState) (amount : ℚ) : AppState :=
  { st with
    zcoin_balance := st.zcoin_balance + amount,
    txns := { transaction_type := "topup", amount := amount,
              description := "Admin added ZCoin" } :: st.txns }

/-- `WalletAdmin.deduct_zcoin` (`core/admin.py`, lines 104-117) for one
wallet: only a wallet whose balance covers the amount is touched. -/
def adminDeductZcoin (st : AppState) (amount : ℚ) : AppState :=
  if st.zcoin_balance ≥ amount then
    { st with
      zcoin_balance := st.zcoin_balance - amount,
      txns := { transaction_type := "refund", amount := -amount,
                description := "Admin deducted ZCoin" } :: st.txns }
  else st

/-- `CommodityPurchaseAdmin.mark_as_cancelled` (`core/admin.py`, lines
566-599) for one purchase: a pending/processing purchase is cancelled, its
total ZCoin refunded with a refund transaction (restocking is outside the
ledger model). -/
def purchaseCancel (st : AppState) (pid : ℕ) : AppState :=
  match st.purchases.find? (fun p =>
      p.id == pid && (p.status == "pending" || p.status == "processing")) with
  | none => st
  | some p =>
    { st with
      zcoin_balance := st.zcoin_balance + p.total_zcoin,
      purchases := st.purchases.map (fun q =>
        if q.id == pid then { q with status := "cancelled" } else q),
      txns := { transaction_type := "refund", amount := p.total_zcoin,
                description := "Commodity purchase cancelled: " ++ p.commodityName }
        :: st.txns }

/-- The description written by `refund_purchase`; the double-refund guard
filters with `description__contains` on its prefix. -/
def refundDescription (name : String) : String := "Commodity refund: " ++ name

/-- `CommodityPurchaseAdmin.refund_purchase` (`core/admin.py`, lines 601-628)
for one purchase: only delivered/cancelled purchases, and only when no
transaction containing the commodity's refund description exists yet. -/
def purchaseRefund (st : AppState) (pid : ℕ) : AppState :=
  match st.purchases.find? (fun p =>
      p.id == pid && (p.status == "delivered" || p.status == "cancelled")) with
  | none => st
  | some p =>
    if st.txns.any (fun t =>
        strHasPrefix (refundDescription p.commodityName) t.description) then st
    else
      { st with
        zcoin_balance := st.zcoin_balance + p.total_zcoin,
        txns := { transaction_type := "refund", amount := p.total_zcoin,
                  description := refundDescription p.commodityName } :: st.txns }

/-! ### The operations of claim C1 as one step type -/

/-- Exactly the wallet-mutating operations the invariant claim enumerates:
top-up credit, swap debit, approval refund, admin add/deduct, purchase
cancellation and purchase refund. -/
inductive AppOp where
  | topup (persistFails : Bool) (ext : TelebirrHttpResult)
      (reference : String) (arg : AmountArg)
  | swapCreate (genre condition : String) (requested_book_id : ℕ)
  | swapApprove (sid : ℕ)
  | adminAdd (amount : ℚ)
  | adminDeduct (amount : ℚ)
  | cancelPurchase (pid : ℕ)
  | refundPurchase (pid : ℕ)

/-- One operation applied to the per-user state. -/
def applyOp (st : AppState) : AppOp → AppState
  | .topup persistFails ext reference arg =>
    (paymentVerificationPost persistFails ext st reference arg).2
  | .swapCreate genre condition bid => (swapPerformCreate st genre condition bid).2
  | .swapApprove sid => approveSwap st sid
  | .adminAdd amount => adminAddZcoin st amount
  | .adminDeduct amount => adminDeductZcoin st amount
  | .cancelPurchase pid => purchaseCancel st pid
  | .refundPurchase pid => purchaseRefund st pid

/-- A whole operation sequence applied in order. -/
def applyOps (st : AppState) (ops : List AppOp) : AppState :=
  ops.foldl applyOp st

/-! ### Helper lemmas -/

theorem txnSum_cons (t : Txn) (ts : List Txn) :
    txnSum (t :: ts) = t.amount + txnSum ts := by
  simp [txnSum]

/-- Every single operation keeps the wallet balance equal to the sum of the
transaction amounts: each code path either leaves both untouched or mutates
the balance and appends the matching transaction inside one atomic block. -/
theorem applyOp_preserves_ledger (st : AppState) (op : AppOp)
    (h : st.zcoin_balance = txnSum st.txns) :
    (applyOp st op).zcoin_balance = txnSum (applyOp st op).txns := by
  cases op with
  | topup persistFails ext reference arg =>
    simp only [applyOp, paymentVerificationPost]
    cases topUpDecision ext st reference arg with
    | reject r => simpa using h
    | commit e p z rc =>
      by_cases hp : persistFails
      · simpa [hp] using h
      · simp [hp, txnSum_cons, mkTopUpTxn, h]
        ring
  | swapCreate genre condition bid =>
    simp only [applyOp, swapPerformCreate]
    repeat' split
    all_goals first
      | exact h
      | (simp [txnSum_cons, h]; ring)
  | swapApprove sid =>
    simp only [applyOp, approveSwap]
    repeat' split
    all_goals first
      | exact h
      | (simp [txnSum_cons, h]; ring)
  | adminAdd amount =>
    simp [applyOp, adminAddZcoin, txnSum_cons, h]
    ring
  | adminDeduct amount =>
    simp only [applyOp, adminDeductZcoin]
    repeat' split
    all_goals first
      | exact h
      | (simp [txnSum_cons, h]; ring)
  | cancelPurchase pid =>
    simp only [applyOp, purchaseCancel]
    repeat' split
    all_goals first
      | exact h
      | (simp [txnSum_cons, h]; ring)
  | refundPurchase pid =>
    simp only [applyOp, purchaseRefund]
    repeat' split
    all_goals first
      | exact h
      | (simp [txnSum_cons, h]; ring)

/-! ### Claim theorems -/

/-- Claim C1: for every user whose wallet starts at zero and is mutated only
through the program's operations (top-up credit, swap debit, approval refund,
admin add/deduct, purchase cancellation/refund), after any sequence of these
operations the wallet's `zcoin_balance` equals the sum of the amounts of all
`Transaction` rows recorded for that user. -/
theorem wallet_balance_equals_transaction_sum (ops : List AppOp)
    (init : AppState) (hbal : init.zcoin_balance = 0) (htx : init.txns = []) :
    (applyOps init ops).zcoin_balance = txnSum (applyOps init ops).txns := by
  have hinv : init.zcoin_balance = txnSum init.txns := by
    simp [hbal, htx, txnSum]
  clear hbal htx
  induction ops generalizing init with
  | nil => simpa [applyOps] using hinv
  | cons op rest ih =>
    simp only [applyOps, List.foldl] at ih ⊢
    exact ih (applyOp init op) (applyOp_preserves_ledger init op hinv)

/-- Witness for C1 at a concrete state and operation sequence. -/
theorem wallet_balance_equals_transaction_sum_witness :
    (applyOps emptyAppState
        [AppOp.adminAdd 100, AppOp.adminDeduct 30,
         AppOp.topup false TelebirrHttpResult.netError "TEST1"
           (AmountArg.package (some { name := "P", zcoin_amount := 10,
                                      price_birr := 150 }))]).zcoin_balance
      = txnSum (applyOps emptyAppState
        [AppOp.adminAdd 100, AppOp.adminDeduct 30,
         AppOp.topup false TelebirrHttpResult.netError "TEST1"
           (AmountArg.package (some { name := "P", zcoin_amount := 10,
                                      price_birr := 150 }))]).txns :=
  wallet_balance_equals_transaction_sum _ emptyAppState rfl rfl

/-- The wallet/book state of the insufficient-balance exhibit: a balance of
10 ZCoin and an available swap book valued at 60 ZCoin. -/
def overdrawState : AppState :=
  { emptyAppState with
    zcoin_balance := 10,
    books := [{ id := 1, title := "Requested", zcoin_value := 60,
                is_available := true, book_type := "swap" }] }

/-- Claim C2 exhibit: the swap-creation debit does not fail when the
requested amount (60) exceeds the balance (10) — the request succeeds and
drives the wallet to -50, below zero.  The guard
`zcoin_difference = max(0, balance - calculated)` of `perform_create` can
never trigger its insufficiency error, contradicting the wallet's declared
`MinValueValidator(0.00)` and the error message's own intent. -/
theorem swap_debit_overdraws_wallet :
    (swapPerformCreate overdrawState "fiction" "good" 1).1
        = SwapCreateResponse.created ∧
    (swapPerformCreate overdrawState "fiction" "good" 1).2.zcoin_balance = -50 ∧
    (swapPerformCreate overdrawState "fiction" "good" 1).2.zcoin_balance < 0 := by
  refine ⟨?_, ?_, ?_⟩ <;> with_unfolding_all decide

/-- The swap-scenario start state: wallet balance 100 ZCoin, one available
swap book valued at 60 ZCoin. -/
def swapScenarioStart : AppState :=
  { emptyAppState with
    zcoin_balance := 100,
    books := [{ id := 1, title := "Requested", zcoin_value := 60,
                is_available := true, book_type := "swap" }] }

/-- The state after the scenario's swap request is created (the submitted
book is a classics book in excellent condition, which the serializer-based
calculation values at 80 ZCoin). -/
def swapScenarioMid : AppState :=
  (swapPerformCreate swapScenarioStart "classics" "excellent" 1).2

/-- The state after the administrator approves that swap. -/
def swapScenarioEnd : AppState := approveSwap swapScenarioMid 1

/-- Claim C5 exhibit: in the documented scenario (balance 100, requested book
valued 60, submitted book valued 80) the code debits 60 as claimed, but on
approval issues no refund: `calculated_zcoin` was stored as the requested
book's own value (60, the submitted book's valuation of 80 is discarded
because the requested book's value is non-zero), so the refund difference is
60 - 60 = 0.  The final balance is 40, not 60, and exactly one transaction
row exists (`swap` -60) instead of two. -/
theorem swap_scenario_missing_refund :
    serializerCalculateZcoin "classics" "excellent" = 80 ∧
    swapScenarioMid.zcoin_balance = 40 ∧
    swapScenarioMid.swaps = [(⟨1, 1, 60, "pending"⟩ : SwapRow)] ∧
    swapScenarioEnd.zcoin_balance = 40 ∧
    swapScenarioEnd.txns = [(⟨"swap", -60, "Swap: Requested"⟩ : Txn)] ∧
    ¬ (swapScenarioEnd.zcoin_balance = 60 ∧ swapScenarioEnd.txns.length = 2) := by
  refine ⟨?_, ?_, ?_, ?_, ?_, ?_⟩ <;> with_unfolding_all decide

/-- Claim C3: once a `Payment` row exists for a reference, a second
verification call with the same reference is rejected deterministically
before any wallet mutation is attempted — the caller gets the already-used
error and the state (payments, transactions, balance) is returned untouched. -/
theorem duplicate_reference_rejected (persistFails : Bool)
    (ext : TelebirrHttpResult) (st : AppState) (ref : String) (arg : AmountArg)
    (hne : trimString ref ≠ "")
    (hdup : st.payments.any
      (fun p => p.reference_number == trimString ref) = true) :
    paymentVerificationPost persistFails ext st ref arg
      = (TopUpResponse.errorDuplicateReference, st) := by
  have hdec : topUpDecision ext st ref arg
      = TopUpDecision.reject TopUpResponse.errorDuplicateReference := by
    simp only [topUpDecision]
    rw [if_neg hne, if_pos hdup]
  simp [paymentVerificationPost, hdec]

/-- The state after a first, successful top-up with reference TEST1. -/
def replayStateW : AppState :=
  (paymentVerificationPost false TelebirrHttpResult.netError emptyAppState
    "TEST1" (AmountArg.package (some { name := "P", zcoin_amount := 10,
                                       price_birr := 150 }))).2

/-- Witness for C3: replaying TEST1 after its successful credit is rejected
with no state change. -/
theorem duplicate_reference_rejected_witness :
    paymentVerificationPost false TelebirrHttpResult.netError replayStateW
        "TEST1" (AmountArg.package (some { name := "P", zcoin_amount := 10,
                                           price_birr := 150 }))
      = (TopUpResponse.errorDuplicateReference, replayStateW) :=
  duplicate_reference_rejected false _ _ _ _
    (by with_unfolding_all decide) (by with_unfolding_all decide)

/-- Claim C4: once a top-up passes verification and reconciliation (the
pre-commit decision is `commit`), the Payment row, the wallet credit and the
topup Transaction are committed as one all-or-nothing unit: if persisting
fails, none of the three is visible, the balance is unchanged, and the caller
receives the distinct verified-but-not-credited (contact support) error; if
persisting succeeds, all three appear together. -/
theorem topup_commit_is_atomic (ext : TelebirrHttpResult) (st : AppState)
    (ref : String) (arg : AmountArg) (e p z : ℚ) (rc : TelebirrReceipt)
    (h : topUpDecision ext st ref arg = TopUpDecision.commit e p z rc) :
    paymentVerificationPost true ext st ref arg
        = (TopUpResponse.errorVerifiedNotCredited, st) ∧
    paymentVerificationPost false ext st ref arg
        = (TopUpResponse.success z (st.zcoin_balance + z) rc.receipt_no
             rc.payer_name (trimString ref),
           { st with
             payments := mkTopUpPayment (trimString ref) e p z rc :: st.payments,
             zcoin_balance := st.zcoin_balance + z,
             txns := mkTopUpTxn (trimString ref) z :: st.txns }) := by
  constructor <;> simp [paymentVerificationPost, h]

/-- Witness for C4 at a concrete committing request. -/
theorem topup_commit_is_atomic_witness :
    paymentVerificationPost true TelebirrHttpResult.netError emptyAppState
        "TEST1" (AmountArg.package (some { name := "P", zcoin_amount := 10,
                                           price_birr := 150 }))
      = (TopUpResponse.errorVerifiedNotCredited, emptyAppState) :=
  (topup_commit_is_atomic TelebirrHttpResult.netError emptyAppState "TEST1"
    (AmountArg.package (some { name := "P", zcoin_amount := 10,
                               price_birr := 150 }))
    150 150 10 (TelebirrVerifier.mockVerify "TEST1")
    (by with_unfolding_all decide)).1

/-- Claim C6: without a manual override, `calculate` returns `final_zcoin`
equal to `clamp(base(category) * multiplier(condition) + bonuses, min_zcoin,
max_zcoin)` rounded half-up to 2 decimal places, with unknown categories
falling back to the contemporary base and unknown conditions to the good
multiplier, and `price` equal to `final_zcoin` times the conversion rate
(rounded the same way); with default settings, fiction/good with no bonuses
yields `final_zcoin` 20.00 and `price` equal to 20.00 times the rate. -/
theorem zcoin_calculate_formula :
    (∀ (s : CalcSettings) (cat cond : String) (ct : Option String)
        (hi hd fe sg : Bool),
      (ZCoinCalculator.calculate s cat cond ct hi hd fe sg none).1.zcoin
          = roundHalfUp2 (clampQ (categoryBase s cat * conditionMult s cond
              + bonusTotal s ct hi hd fe sg) s.min_zcoin s.max_zcoin) ∧
      (ZCoinCalculator.calculate s cat cond ct hi hd fe sg none).1.price_birr
          = roundHalfUp2
              ((ZCoinCalculator.calculate s cat cond ct hi hd fe sg none).1.zcoin
                * s.zcoin_to_birr_rate)) ∧
    (∀ (s : CalcSettings) (cat : String),
      cat ∉ knownCategories → categoryBase s cat = s.contemporary_base) ∧
    (∀ (s : CalcSettings) (cond : String),
      cond ∉ knownConditions → conditionMult s cond = s.good_multiplier) ∧
    ((ZCoinCalculator.calculate defaultCalcSettings "fiction" "good" none
        false false false false none).1.zcoin = 20 ∧
     (ZCoinCalculator.calculate defaultCalcSettings "fiction" "good" none
        false false false false none).1.price_birr
        = 20 * defaultCalcSettings.zcoin_to_birr_rate) := by
  refine ⟨fun s cat cond ct hi hd fe sg => ⟨?_, ?_⟩, ?_, ?_, ?_, ?_⟩
  · simp only [ZCoinCalculator.calculate, clampQ]
    rw [min_comm]
  · simp only [ZCoinCalculator.calculate]
  · intro s cat hcat
    simp only [knownCategories, List.mem_cons, List.not_mem_nil, or_false,
      not_or] at hcat
    obtain ⟨h1, h2, h3, h4, h5, h6, h7⟩ := hcat
    simp [categoryBase, h1, h2, h3, h4, h5, h6, h7]
  · intro s cond hcond
    simp only [knownConditions, List.mem_cons, List.not_mem_nil, or_false,
      not_or] at hcond
    obtain ⟨h1, h2, h3, h4⟩ := hcond
    simp [conditionMult, h1, h2, h3, h4]
  · with_unfolding_all decide
  · with_unfolding_all decide

/-- Witness for C6: the fallbacks at a category and a condition outside the
configured keys. -/
theorem zcoin_calculate_formula_witness :
    categoryBase defaultCalcSettings "mystery"
        = defaultCalcSettings.contemporary_base ∧
    conditionMult defaultCalcSettings "damaged"
        = defaultCalcSettings.good_multiplier :=
  ⟨zcoin_calculate_formula.2.1 defaultCalcSettings "mystery" (by decide),
   zcoin_calculate_formula.2.2.1 defaultCalcSettings "damaged" (by decide)⟩

/-- Claim C7 counterexample: the claim says the independently computed
pre-override figure is still logged for reference, but the source overwrites
`calculated_zcoin` with the override before logging
(`calculated_zcoin = final_zcoin  # For logging purposes`): for fiction/good
with no bonuses the computed figure is 20, yet the log row of the run with
`manual_zcoin=50` records `calculated_zcoin = 50`, not 20. -/
theorem manual_override_overwrites_computed_log :
    (ZCoinCalculator.calculate defaultCalcSettings "fiction" "good" none
        false false false false none).2.calculated_zcoin = 20 ∧
    (ZCoinCalculator.calculate defaultCalcSettings "fiction" "good" none
        false false false false (some 50)).2.calculated_zcoin = 50 ∧
    ¬ ((ZCoinCalculator.calculate defaultCalcSettings "fiction" "good" none
        false false false false (some 50)).2.calculated_zcoin
      = (ZCoinCalculator.calculate defaultCalcSettings "fiction" "good" none
        false false false false none).2.calculated_zcoin) := by
  refine ⟨?_, ?_, ?_⟩ <;> with_unfolding_all decide

/-- Claim C7 as amended: with a manual override `m`, the returned
`final_zcoin` is `m` itself (rounded to 2 decimals) regardless of category,
condition, bonuses and the min/max clamp; the log row records
`manual_override = true` and `manual_zcoin = m`; the independently computed
base value, condition multiplier and bonuses are still logged, but the
logged `calculated_zcoin` is overwritten with the override value rather than
the pre-override computed figure. -/
theorem manual_override_final_value (s : CalcSettings) (cat cond : String)
    (ct : Option String) (hi hd fe sg : Bool) (m : ℚ) :
    (ZCoinCalculator.calculate s cat cond ct hi hd fe sg (some m)).1.zcoin
        = roundHalfUp2 m ∧
    (ZCoinCalculator.calculate s cat cond ct hi hd fe sg (some m)).1.is_manual
        = true ∧
    (ZCoinCalculator.calculate s cat cond ct hi hd fe sg
        (some m)).2.manual_override = true ∧
    (ZCoinCalculator.calculate s cat cond ct hi hd fe sg (some m)).2.manual_zcoin
        = some m ∧
    (ZCoinCalculator.calculate s cat cond ct hi hd fe sg (some m)).2.base_value
        = categoryBase s cat ∧
    (ZCoinCalculator.calculate s cat cond ct hi hd fe sg
        (some m)).2.condition_multiplier = conditionMult s cond ∧
    (ZCoinCalculator.calculate s cat cond ct hi hd fe sg (some m)).2.bonuses
        = roundHalfUp2 (bonusTotal s ct hi hd fe sg) ∧
    (ZCoinCalculator.calculate s cat cond ct hi hd fe sg
        (some m)).2.calculated_zcoin = roundHalfUp2 m ∧
    (ZCoinCalculator.calculate defaultCalcSettings "fiction" "good" none
        false false false false (some 50)).1.zcoin = 50 := by
  refine ⟨?_, ?_, ?_, ?_, ?_, ?_, ?_, ?_, ?_⟩
  all_goals first
    | with_unfolding_all decide
    | simp [ZCoinCalculator.calculate]

/-- Claim C8: amount reconciliation accepts a verified paid amount exactly
when `expected - 0.50 <= verified <= expected + 0.50`; 100.00 against 100.40
is accepted, 100.00 against 100.60 is rejected, and a rejection reports both
the expected and the received amount back to the caller (shown here by a
concrete endpoint run whose mismatch response carries 149 and 150). -/
theorem amount_reconciliation_band :
    (∀ e p : ℚ,
      amountWithinTolerance e p = true ↔ (e - 1/2 ≤ p ∧ p ≤ e + 1/2)) ∧
    amountWithinTolerance 100 (502/5) = true ∧
    amountWithinTolerance 100 (503/5) = false ∧
    paymentVerificationPost false TelebirrHttpResult.netError emptyAppState
        "REF1" (AmountArg.package (some { name := "Q", zcoin_amount := 10,
                                          price_birr := 149 }))
      = (TopUpResponse.errorAmountMismatch 149 150, emptyAppState) := by
  refine ⟨fun e p => ?_, ?_, ?_, ?_⟩
  · simp [amountWithinTolerance]
  · with_unfolding_all decide
  · with_unfolding_all decide
  · with_unfolding_all decide

/-- Validation consequence of `_parse_api_response`: success implies payer
name non-empty and amount positive. -/
theorem abyssiniaParse_success (j : AbyssiniaJson)
    (h : (abyssiniaParseApiResponse j).success = true) :
    (abyssiniaParseApiResponse j).payer_name ≠ "" ∧
    0 < (abyssiniaParseApiResponse j).amount := by
  rcases hb : j.body with _ | ⟨txn, rest⟩ <;>
    simp only [abyssiniaParseApiResponse, hb] at h ⊢
  · simp at h
  · by_cases hc : trimString txn.payerName ≠ "" ∧
        0 < parseAbyssiniaAmount txn.transferredAmount
    · rw [if_pos hc]
      exact ⟨hc.1, hc.2⟩
    · rw [if_neg hc] at h
      simp at h

/-- Every failure outcome of `_parse_api_response` carries a reason. -/
theorem abyssiniaParse_failure (j : AbyssiniaJson)
    (h : (abyssiniaParseApiResponse j).success = false) :
    (abyssiniaParseApiResponse j).error ≠ none := by
  rcases hb : j.body with _ | ⟨txn, rest⟩ <;>
    simp only [abyssiniaParseApiResponse, hb] at h ⊢
  · simp
  · by_cases hc : trimString txn.payerName ≠ "" ∧
        0 < parseAbyssiniaAmount txn.transferredAmount
    · rw [if_pos hc] at h
      simp at h
    · rw [if_neg hc]
      simp

/-- Claim C9 counterexample: the mobile-money provider's failure outcome
carries no reason.  `TelebirrVerifier.verify` returns a value of type
`Option TelebirrReceipt`, whose failure value is the bare `none` — a
constructor with no reason field at all — and that identical `none` is
returned for a network error, any other raised exception, a 404 response and
a 200 response with an incomplete receipt, so the cause of failure cannot be
recovered from the returned outcome (the reason exists only in log calls).
This refutes the claim that every provider failure returns "a failure
outcome with a reason": it holds for the bank provider but not for the
mobile-money one. -/
theorem telebirr_failure_outcome_reasonless :
    TelebirrVerifier.verify false TelebirrHttpResult.netError "FT1" = none ∧
    TelebirrVerifier.verify false TelebirrHttpResult.exn "FT1" = none ∧
    TelebirrVerifier.verify false
      (TelebirrHttpResult.ok 404 ({} : TelebirrReceipt)) "FT1" = none ∧
    TelebirrVerifier.verify false
      (TelebirrHttpResult.ok 200 ({} : TelebirrReceipt)) "FT1" = none ∧
    TelebirrVerifier.verify false TelebirrHttpResult.netError "FT1"
      = TelebirrVerifier.verify false
          (TelebirrHttpResult.ok 200 ({} : TelebirrReceipt)) "FT1" := by
  refine ⟨rfl, rfl, by decide, by decide, by decide⟩

/-- Claim C9 as amended: for every possible external response, both provider
verify operations produce a typed failure outcome instead of raising an
unhandled error (every raised exception case is an explicit arm mapping to a
failure value); the bank provider's failure outcome always carries a
human-readable reason, while the mobile-money provider's failure outcome is
a bare `none` carrying no reason (the reason is only logged).  A successful
outcome requires the critical fields: for the mobile-money provider the
receipt number, payer name, a settled-or-total amount and the transaction
status must all be non-empty; for the bank provider the payer name must be
non-empty and the amount positive. -/
theorem provider_verify_outcomes :
    (∀ (ext : TelebirrHttpResult) (ref : String) (r : TelebirrReceipt),
      TelebirrVerifier.verify false ext ref = some r →
      r.receipt_no ≠ "" ∧ r.payer_name ≠ "" ∧
      (r.settled_amount ≠ "" ∨ r.total_paid_amount ≠ "") ∧
      r.transaction_status ≠ "") ∧
    (∀ ref : String,
      TelebirrVerifier.verify false TelebirrHttpResult.netError ref = none ∧
      TelebirrVerifier.verify false TelebirrHttpResult.exn ref = none) ∧
    (∀ (ext : AbyssiniaHttpResult) (ref suf : String),
      (AbyssiniaVerifier.verify false ext ref suf).success = true →
      (AbyssiniaVerifier.verify false ext ref suf).payer_name ≠ "" ∧
      0 < (AbyssiniaVerifier.verify false ext ref suf).amount) ∧
    (∀ (ext : AbyssiniaHttpResult) (ref suf : String),
      (AbyssiniaVerifier.verify false ext ref suf).success = false →
      (AbyssiniaVerifier.verify false ext ref suf).error ≠ none) := by
  refine ⟨?_, ?_, ?_, ?_⟩
  · intro ext ref r h
    cases ext with
    | netError => simp [TelebirrVerifier.verify] at h
    | exn => simp [TelebirrVerifier.verify] at h
    | ok status scraped =>
      simp only [TelebirrVerifier.verify, Bool.false_eq_true, if_false] at h
      split at h
      · exact absurd h (by simp)
      · split at h
        · obtain rfl : scraped = r := by simpa using h
          rename_i hvalid
          simpa [telebirrIsValidReceipt, Bool.and_eq_true, Bool.or_eq_true,
            bne_iff_ne, and_assoc] using hvalid
        · exact absurd h (by simp)
  · intro ref
    exact ⟨rfl, rfl⟩
  · intro ext ref suf h
    cases ext with
    | netError => simp [AbyssiniaVerifier.verify] at h
    | exn => simp [AbyssiniaVerifier.verify] at h
    | ok status json? =>
      by_cases hs : status = 200
      · cases json? with
        | none => simp [AbyssiniaVerifier.verify, hs] at h
        | some j =>
          by_cases hh : lowerString j.headerStatus = "success"
          · have hred : AbyssiniaVerifier.verify false
                (AbyssiniaHttpResult.ok status (some j)) ref suf
                = abyssiniaParseApiResponse j := by
              simp [AbyssiniaVerifier.verify, hs, hh]
            rw [hred] at h ⊢
            exact abyssiniaParse_success j h
          · simp [AbyssiniaVerifier.verify, hs, hh] at h
      · simp [AbyssiniaVerifier.verify, hs] at h
  · intro ext ref suf h
    cases ext with
    | netError => simp [AbyssiniaVerifier.verify]
    | exn => simp [AbyssiniaVerifier.verify]
    | ok status json? =>
      by_cases hs : status = 200
      · cases json? with
        | none => simp [AbyssiniaVerifier.verify, hs]
        | some j =>
          by_cases hh : lowerString j.headerStatus = "success"
          · have hred : AbyssiniaVerifier.verify false
                (AbyssiniaHttpResult.ok status (some j)) ref suf
                = abyssiniaParseApiResponse j := by
              simp [AbyssiniaVerifier.verify, hs, hh]
            rw [hred] at h ⊢
            exact abyssiniaParse_failure j h
          · simp [AbyssiniaVerifier.verify, hs, hh]
      · simp [AbyssiniaVerifier.verify, hs]

/-- A complete scraped Telebirr receipt used to instantiate the success case. -/
def telebirrOkReceiptW : TelebirrReceipt :=
  { payer_name := "Abebe Kebede", transaction_status := "Completed",
    receipt_no := "R1", settled_amount := "10.00 Birr" }

/-- A well-formed Bank of Abyssinia JSON document used to instantiate the
success case. -/
def abyssiniaJsonW : AbyssiniaJson :=
  { headerStatus := "success", headerMessage := none,
    body := [{ transferredAmount := "250.00 ETB", payerName := "Yordanos ",
               sourceAccount := "1000", transactionDate := "30-Nov-2025",
               transactionReference := "FT190172", narrative := "BOOKSWAP" }] }

/-- Witness for C9: the theorem applied at a valid Telebirr response, a valid
Bank of Abyssinia response, and a failed (network error) one. -/
theorem provider_verify_outcomes_witness :
    (telebirrOkReceiptW.receipt_no ≠ "" ∧ telebirrOkReceiptW.payer_name ≠ "" ∧
      (telebirrOkReceiptW.settled_amount ≠ "" ∨
        telebirrOkReceiptW.total_paid_amount ≠ "") ∧
      telebirrOkReceiptW.transaction_status ≠ "") ∧
    ((AbyssiniaVerifier.verify false
        (AbyssiniaHttpResult.ok 200 (some abyssiniaJsonW)) "FT1" "90172").payer_name
        ≠ "" ∧
      0 < (AbyssiniaVerifier.verify false
        (AbyssiniaHttpResult.ok 200 (some abyssiniaJsonW)) "FT1" "90172").amount) ∧
    (AbyssiniaVerifier.verify false AbyssiniaHttpResult.netError
        "FT1" "90172").error ≠ none :=
  ⟨provider_verify_outcomes.1 (TelebirrHttpResult.ok 200 telebirrOkReceiptW) "X"
      telebirrOkReceiptW (by decide),
   provider_verify_outcomes.2.2.1 (AbyssiniaHttpResult.ok 200 (some abyssiniaJsonW))
      "FT1" "90172" (by with_unfolding_all decide),
   provider_verify_outcomes.2.2.2 AbyssiniaHttpResult.netError "FT1" "90172"
      (by decide)⟩

/-- The paid amount parsed out of the fixed mock settled amount. -/
theorem parse_mock_settled : parsePaidAmount "150.00 Birr" = some 150 := by
  with_unfolding_all decide

/-- Shape of the pre-commit decision whenever the early checks pass: because
the view always runs the verifier in mock mode, the receipt is the fixed mock
receipt and the paid amount is always 150. -/
theorem topUpDecision_mock_shape (ext : TelebirrHttpResult) (st : AppState)
    (ref : String) (arg : AmountArg) (e z : ℚ)
    (h1 : ¬ trimString ref = "")
    (h2 : ¬ st.payments.any (fun p => p.reference_number == trimString ref)
        = true)
    (h3 : expectedAmounts arg = Except.ok (e, z)) :
    topUpDecision ext st ref arg =
      if amountWithinTolerance e 150 then
        TopUpDecision.commit e 150 z (TelebirrVerifier.mockVerify (trimString ref))
      else TopUpDecision.reject (TopUpResponse.errorAmountMismatch e 150) := by
  simp only [topUpDecision, TelebirrVerifier.verify, if_true, h3]
  rw [if_neg h1, if_neg h2]
  have hne : (TelebirrVerifier.mockVerify (trimString ref)).settled_amount ≠ "" := by
    simp [TelebirrVerifier.mockVerify]
  rw [if_pos hne]
  simp only [TelebirrVerifier.mockVerify, parse_mock_settled]

/-- Claim C10: the payment-verification endpoint constructs its verifier with
mock mode unconditionally enabled, so its outcome never depends on the
external network response (two runs with the same request and state coincide
for any pair of external responses); the verification outcome is always the
fixed mock receipt (payer Abebe Kebede, settled amount 150.00 Birr, receipt
number the uppercased reference); and a commit — hence any wallet credit —
happens only when the expected amount lies within 0.50 of 150.00. -/
theorem mock_mode_pipeline :
    (∀ (persistFails : Bool) (ext ext' : TelebirrHttpResult) (st : AppState)
        (ref : String) (arg : AmountArg),
      paymentVerificationPost persistFails ext st ref arg
        = paymentVerificationPost persistFails ext' st ref arg) ∧
    (∀ (ext : TelebirrHttpResult) (ref : String),
      TelebirrVerifier.verify true ext ref
        = some { payer_name := "Abebe Kebede", payer_telebirr_no := "0912345678",
                 credited_party_name := "BookSwap Ethiopia",
                 credited_party_account_no := "1000123456",
                 transaction_status := "Completed",
                 receipt_no := upperString ref,
                 payment_date := "29-04-2025 10:30:45",
                 settled_amount := "150.00 Birr", service_fee := "3.00 Birr",
                 service_fee_vat := "0.45 Birr",
                 total_paid_amount := "153.45 Birr", bank_name := "" }) ∧
    (∀ (ext : TelebirrHttpResult) (st : AppState) (ref : String)
        (arg : AmountArg) (e p z : ℚ) (rc : TelebirrReceipt),
      topUpDecision ext st ref arg = TopUpDecision.commit e p z rc →
      p = 150 ∧ 150 - 1/2 ≤ e ∧ e ≤ 150 + 1/2) ∧
    (∀ (persistFails : Bool) (ext : TelebirrHttpResult) (st : AppState)
        (ref : String) (arg : AmountArg),
      (paymentVerificationPost persistFails ext st ref arg).2.zcoin_balance
          ≠ st.zcoin_balance →
      ∃ e z rc, topUpDecision ext st ref arg = TopUpDecision.commit e 150 z rc ∧
        150 - 1/2 ≤ e ∧ e ≤ 150 + 1/2) := by
  have hband : ∀ (ext : TelebirrHttpResult) (st : AppState) (ref : String)
      (arg : AmountArg) (e p z : ℚ) (rc : TelebirrReceipt),
      topUpDecision ext st ref arg = TopUpDecision.commit e p z rc →
      p = 150 ∧ 150 - 1/2 ≤ e ∧ e ≤ 150 + 1/2 := by
    intro ext st ref arg e p z rc h
    by_cases h1 : trimString ref = ""
    · simp [topUpDecision, h1] at h
    · by_cases h2 : st.payments.any
          (fun q => q.reference_number == trimString ref) = true
      · rw [show topUpDecision ext st ref arg
            = TopUpDecision.reject TopUpResponse.errorDuplicateReference by
            simp only [topUpDecision]; rw [if_neg h1, if_pos h2]] at h
        exact absurd h (by simp)
      · rcases harg : expectedAmounts arg with r | ⟨ea, za⟩
        · rw [show topUpDecision ext st ref arg = TopUpDecision.reject r by
            simp only [topUpDecision, harg]; rw [if_neg h1, if_neg h2]] at h
          exact absurd h (by simp)
        · rw [topUpDecision_mock_shape ext st ref arg ea za h1 h2 harg] at h
          by_cases htol : amountWithinTolerance ea 150 = true
          · rw [if_pos htol] at h
            obtain ⟨he, hp, hz, hrc⟩ :
                e = ea ∧ p = 150 ∧ z = za ∧
                  rc = TelebirrVerifier.mockVerify (trimString ref) := by
              cases h
              exact ⟨rfl, rfl, rfl, rfl⟩
            have hb : ea - 1/2 ≤ 150 ∧ (150 : ℚ) ≤ ea + 1/2 := by
              simpa [amountWithinTolerance] using htol
            subst he hp
            constructor
            · rfl
            constructor
            · linarith [hb.2]
            · linarith [hb.1]
          · rw [if_neg htol] at h
            exact absurd h (by simp)
  refine ⟨?_, ?_, hband, ?_⟩
  · intro persistFails ext ext2 st ref arg
    simp [paymentVerificationPost, topUpDecision, TelebirrVerifier.verify]
  · intro ext ref
    rfl
  · intro persistFails ext st ref arg hchange
    rcases hdec : topUpDecision ext st ref arg with r | ⟨e, p, z, rc⟩
    · exact absurd (by simp [paymentVerificationPost, hdec]) hchange
    · obtain ⟨hp, hlo, hhi⟩ := hband ext st ref arg e p z rc hdec
      subst hp
      exact ⟨e, z, rc, rfl, hlo, hhi⟩

/-- Witness for C10: the band implication applied at a concrete committing
request (expected 150, paid 150). -/
theorem mock_mode_pipeline_witness :
    (150 : ℚ) = 150 ∧ (150 : ℚ) - 1/2 ≤ 150 ∧ (150 : ℚ) ≤ 150 + 1/2 :=
  mock_mode_pipeline.2.2.1 TelebirrHttpResult.netError emptyAppState "TEST1"
    (AmountArg.package (some { name := "P", zcoin_amount := 10,
                               price_birr := 150 }))
    150 150 10 (TelebirrVerifier.mockVerify "TEST1")
    (by with_unfolding_all decide)

end ZeroBookSwap
